import Mathlib

/-!
Verification of the authentication token and session lifecycle subsystem of
SkillForgeAI. The definitions below shallowly embed the backend services
(`JwtService` in jwt.service.ts, `RedisService` in redis.service.ts) and, where
the repository ships only these skeletal wrappers, model the SessionManager
layer described by the specification. Time is measured in whole seconds
(`Nat`), matching JWT `iat`/`exp` claims and Redis TTLs.
-/

/-- A decoded JWT payload as produced by the `jsonwebtoken` library for this
service: `jwt.sign({ userId }, secret, { expiresIn })` yields the claims
`{ userId, iat, exp }`; an optional `sid` claim is included only when the
signer puts it in the payload object. -/
structure Payload where
  userId : String
  sid : Option String
  iat : Nat
  exp : Nat
deriving DecidableEq

/-- A token string as seen by `jsonwebtoken`: either not a well-formed
three-segment JWT at all, or a well-formed JWT carrying a payload together
with the secret whose HMAC signed it (the signature is modelled abstractly as
unforgeable: a signature checks out exactly when the verifying secret equals
the signing secret). -/
inductive Token where
  | malformed : String → Token
  | signed : Payload → String → Token
deriving DecidableEq

/-- The payload of a well-formed token, `none` for malformed input. -/
def Token.payloadOf : Token → Option Payload
  | .malformed _ => none
  | .signed p _ => some p

/-- Error outcomes of `jsonwebtoken`'s `verify`: `JsonWebTokenError "jwt
malformed"`, `JsonWebTokenError "invalid signature"`, `TokenExpiredError`. -/
inductive JwtError where
  | TokenMalformed
  | TokenSignatureInvalid
  | TokenExpired
deriving DecidableEq

/-- `jsonwebtoken`'s `jwt.sign(payload, secret, { expiresIn })`: stamps
`iat := now` and `exp := now + expiresIn` and signs with `secret`. -/
def jwtSign (userId : String) (sid : Option String) (secret : String)
    (now expiresIn : Nat) : Token :=
  .signed { userId := userId, sid := sid, iat := now, exp := now + expiresIn } secret

/-- `jsonwebtoken`'s `jwt.verify(token, secret)`: rejects malformed encodings,
then checks the signature against `secret`, then rejects expired tokens —
the library treats a token as expired when `clockTimestamp >= exp +
clockTolerance`, where `clockTolerance` is the verify-call option (`0` when
the caller passes no options). -/
def jwtVerify (t : Token) (secret : String) (now clockTolerance : Nat) :
    Except JwtError Payload :=
  match t with
  | .malformed _ => .error .TokenMalformed
  | .signed p s =>
    if s ≠ secret then .error .TokenSignatureInvalid
    else if p.exp + clockTolerance ≤ now then .error .TokenExpired
    else .ok p

/-- The configuration fields `JwtService` reads from `env` (env.config):
the two signing secrets and the two expiry durations (modelled in seconds). -/
structure Env where
  ACCESS_TOKEN_SECRET : String
  REFRESH_TOKEN_SECRET : String
  ACCESS_TOKEN_EXPIRY : Nat
  REFRESH_TOKEN_EXPIRY : Nat
deriving DecidableEq

namespace JwtService

/-- jwt.service.ts `generateAccessToken(userId)`: signs `{ userId }` with the
access secret and the access expiry. No `sid` claim is placed in the
payload. -/
def generateAccessToken (e : Env) (userId : String) (now : Nat) : Token :=
  jwtSign userId none e.ACCESS_TOKEN_SECRET now e.ACCESS_TOKEN_EXPIRY

/-- jwt.service.ts `generateRefreshToken(userId)`: signs `{ userId }` with the
refresh secret and the refresh expiry. The method takes no session
identifier and places no `sid` claim in the payload. -/
def generateRefreshToken (e : Env) (userId : String) (now : Nat) : Token :=
  jwtSign userId none e.REFRESH_TOKEN_SECRET now e.REFRESH_TOKEN_EXPIRY

/-- jwt.service.ts `verifyAccessToken(token)`: `jwt.verify(token,
accessSecret)` with no options, so the library's default clock tolerance of
`0` applies. -/
def verifyAccessToken (e : Env) (t : Token) (now : Nat) : Except JwtError Payload :=
  jwtVerify t e.ACCESS_TOKEN_SECRET now 0

/-- jwt.service.ts `verifyRefreshToken(token)`: `jwt.verify(token,
refreshSecret)` with no options, so the library's default clock tolerance of
`0` applies. -/
def verifyRefreshToken (e : Env) (t : Token) (now : Nat) : Except JwtError Payload :=
  jwtVerify t e.REFRESH_TOKEN_SECRET now 0

end JwtService

/-! ## TTL key-value store

A Redis database restricted to the operations this backend uses (`setEx`,
`get`, `del`) is a finite map from string keys to a value together with the
TTL it was stored with; we represent it as an association list in which each
operation keeps keys unique. -/

/-- Remove every binding of key `k` (Redis `DEL`: removing an absent key is a
successful no-op). -/
def tdel {α : Type} : List (String × α × Nat) → String → List (String × α × Nat)
  | [], _ => []
  | e :: rest, k => if e.1 = k then tdel rest k else e :: tdel rest k

/-- Bind key `k` to value `v` with TTL `ttl`, overwriting any previous binding
(Redis `SETEX` semantics). -/
def tset {α : Type} (l : List (String × α × Nat)) (k : String) (v : α) (ttl : Nat) :
    List (String × α × Nat) :=
  (k, v, ttl) :: tdel l k

/-- Look up key `k`, returning its value and TTL (Redis `GET`, which returns
nil for an absent key). -/
def tget {α : Type} : List (String × α × Nat) → String → Option (α × Nat)
  | [], _ => none
  | e :: rest, k => if e.1 = k then some e.2 else tget rest k

/-- The single error kind a failed Redis operation surfaces as: each wrapper
method catches the client error and throws a fresh `Error` to its caller (the
spec's `StoreUnavailable`). -/
inductive StoreError where
  | StoreUnavailable
deriving DecidableEq

/-- The contents of the Redis database: string values with TTLs. -/
abbrev RStore := List (String × String × Nat)

namespace RedisService

/-- redis.service.ts `set(key, value, expirySeconds)`: `client.setEx` inside
try/catch; a failing client call (`fault = true`) is rethrown as an error,
a successful one overwrites the key with the fresh TTL. -/
def set (s : RStore) (key value : String) (expirySeconds : Nat) (fault : Bool) :
    Except StoreError RStore :=
  if fault then .error .StoreUnavailable
  else .ok (tset s key value expirySeconds)

/-- redis.service.ts `get(key)`: `client.get` inside try/catch; a failing
client call is rethrown, otherwise the stored value or `null` (here `none`)
for an absent key is returned. -/
def get (s : RStore) (key : String) (fault : Bool) :
    Except StoreError (Option String) :=
  if fault then .error .StoreUnavailable
  else .ok ((tget s key).map Prod.fst)

/-- redis.service.ts `del(key)`: `client.del` inside try/catch; a failing
client call is rethrown, otherwise the key is removed (a no-op when the key
is absent — Redis `DEL` just reports 0 keys removed). -/
def del (s : RStore) (key : String) (fault : Bool) : Except StoreError RStore :=
  if fault then .error .StoreUnavailable
  else .ok (tdel s key)

end RedisService

/-! ## SessionManager layer

The repository ships only the skeletal `JwtService` and `RedisService`
wrappers; the SessionManager that composes them (login, refresh with
rotation and reuse detection, logout, access verification, RevocationIndex)
is described by the specification but absent from the visible source, so it
is modelled from the specification below. -/

/-- Modelled from the spec: the error taxonomy of §7, covering the token
errors of the visible `JwtService` together with the session/store error
kinds of the missing SessionManager layer. -/
inductive AuthError where
  | TokenMalformed
  | TokenSignatureInvalid
  | TokenExpired
  | SessionNotFound
  | SessionRevoked
  | StoreUnavailable
deriving DecidableEq

/-- Modelled from the spec: embeds a token-verification error of the visible
`JwtService` into the SessionManager error taxonomy of §7. -/
def ofJwtError : JwtError → AuthError
  | .TokenMalformed => .TokenMalformed
  | .TokenSignatureInvalid => .TokenSignatureInvalid
  | .TokenExpired => .TokenExpired

/-- Modelled from the spec: the configuration of the missing SessionManager
layer (§6) — signing secrets, token expiries, and the small configurable
clock-skew tolerance of §4.1, all absent from the visible source. -/
structure Config where
  accessSecret : String
  refreshSecret : String
  accessExpiry : Nat
  refreshExpiry : Nat
  clockTolerance : Nat
deriving DecidableEq

/-- Modelled from the spec: the `TokenPair` record of §3 returned by the
missing `login`/`refresh` operations. -/
structure TokenPair where
  accessToken : Token
  refreshToken : Token
  issuedAt : Nat
  accessExpiresAt : Nat
  refreshExpiresAt : Nat
deriving DecidableEq

/-- Modelled from the spec: the session record of §3 kept in the SessionStore
by the missing SessionManager. The `refreshFingerprint` field holds an
abstract collision-free one-way hash of the current refresh token, modelled
as the token value itself (only injectivity and determinism of the hash are
relevant to the properties under verification). -/
structure SessionRecord where
  userId : String
  refreshFingerprint : Token
  createdAt : Nat
  lastRotatedAt : Nat
deriving DecidableEq

/-- Modelled from the spec: the shared state the missing SessionManager keeps
in the TTL store — session records keyed by `session:{sessionId}` and the
RevocationIndex of §4.4, a TTL set of revoked subject identifiers. -/
structure SMState where
  sessions : List (String × SessionRecord × Nat)
  revoked : List (String × Nat)
deriving DecidableEq

/-- Modelled from the spec: the store key layout `session:{sessionId}` of §6,
absent from the visible source. -/
def sessionKey (sid : String) : String := "session:" ++ sid

/-- Modelled from the spec: RevocationIndex `contains(subjectId)` of §4.4,
absent from the visible source. -/
def revContains : List (String × Nat) → String → Bool
  | [], _ => false
  | e :: rest, subj => if e.1 = subj then true else revContains rest subj

/-- Modelled from the spec: RevocationIndex `add(subjectId)` with a TTL, of
§4.4, absent from the visible source. -/
def revAdd (rev : List (String × Nat)) (subj : String) (ttl : Nat) :
    List (String × Nat) :=
  (subj, ttl) :: rev

/-- Modelled from the spec: `SessionManager.login(userId)` of §4.3, absent
from the visible source. A fresh high-entropy `sessionId` is supplied as the
parameter `sid`; the token pair is built, the refresh fingerprint computed,
and the session record written with TTL equal to the refresh-token lifetime.
A failing store write (`storeFault = true`) fails the whole operation with
`StoreUnavailable` and returns no tokens. -/
def login (cfg : Config) (st : SMState) (userId sid : String) (now : Nat)
    (storeFault : Bool) : Except AuthError TokenPair × SMState :=
  let access := jwtSign userId none cfg.accessSecret now cfg.accessExpiry
  let refreshTok := jwtSign userId (some sid) cfg.refreshSecret now cfg.refreshExpiry
  let record : SessionRecord :=
    { userId := userId, refreshFingerprint := refreshTok,
      createdAt := now, lastRotatedAt := now }
  if storeFault then (.error .StoreUnavailable, st)
  else
    (.ok { accessToken := access, refreshToken := refreshTok, issuedAt := now,
           accessExpiresAt := now + cfg.accessExpiry,
           refreshExpiresAt := now + cfg.refreshExpiry },
     { sessions := tset st.sessions (sessionKey sid) record cfg.refreshExpiry,
       revoked := st.revoked })

/-- Modelled from the spec: `SessionManager.refresh(oldRefreshToken)` of
§4.3, absent from the visible source. Verifies signature/expiry, extracts
the `sid` claim, reads the session record (a miss is `SessionRevoked`),
compares fingerprints (a mismatch is reuse: the whole session is revoked —
record deleted and `sid` added to the RevocationIndex — and `SessionRevoked`
returned), and on a match replaces the record with the new fingerprint and a
reset TTL before returning the new pair. -/
def refresh (cfg : Config) (st : SMState) (old : Token) (now : Nat)
    (storeFault : Bool) : Except AuthError TokenPair × SMState :=
  match jwtVerify old cfg.refreshSecret now cfg.clockTolerance with
  | .error e => (.error (ofJwtError e), st)
  | .ok p =>
    match p.sid with
    | none => (.error .TokenMalformed, st)
    | some sid =>
      if storeFault then (.error .StoreUnavailable, st)
      else
        match tget st.sessions (sessionKey sid) with
        | none => (.error .SessionRevoked, st)
        | some (r, _) =>
          if r.refreshFingerprint = old then
            let access := jwtSign p.userId none cfg.accessSecret now cfg.accessExpiry
            let newRefresh :=
              jwtSign p.userId (some sid) cfg.refreshSecret now cfg.refreshExpiry
            let newRec : SessionRecord :=
              { userId := r.userId, refreshFingerprint := newRefresh,
                createdAt := r.createdAt, lastRotatedAt := now }
            (.ok { accessToken := access, refreshToken := newRefresh,
                   issuedAt := now, accessExpiresAt := now + cfg.accessExpiry,
                   refreshExpiresAt := now + cfg.refreshExpiry },
             { sessions := tset st.sessions (sessionKey sid) newRec cfg.refreshExpiry,
               revoked := st.revoked })
          else
            (.error .SessionRevoked,
             { sessions := tdel st.sessions (sessionKey sid),
               revoked := revAdd st.revoked sid cfg.accessExpiry })

/-- Modelled from the spec: `SessionManager.logout(sessionId)` of §4.3,
absent from the visible source. Deletes the session record and adds the
`sessionId` to the RevocationIndex with TTL equal to the maximum
access-token lifetime; idempotent on an already-absent session. -/
def logout (cfg : Config) (st : SMState) (sid : String) (storeFault : Bool) :
    Except AuthError Unit × SMState :=
  if storeFault then (.error .StoreUnavailable, st)
  else
    (.ok (),
     { sessions := tdel st.sessions (sessionKey sid),
       revoked := revAdd st.revoked sid cfg.accessExpiry })

/-- Modelled from the spec: `SessionManager.verifyAccess(accessToken)` of
§4.3, absent from the visible source. Verifies signature and expiry only —
no SessionStore read — and then consults the RevocationIndex for the token's
`sub` and (if present) `sid` claim. -/
def verifyAccess (cfg : Config) (st : SMState) (t : Token) (now : Nat) :
    Except AuthError String :=
  match jwtVerify t cfg.accessSecret now cfg.clockTolerance with
  | .error e => .error (ofJwtError e)
  | .ok p =>
    if revContains st.revoked p.userId then .error .SessionRevoked
    else
      match p.sid with
      | some s => if revContains st.revoked s then .error .SessionRevoked
                  else .ok p.userId
      | none => .ok p.userId

/-! ## Concrete instances used by witnesses -/

/-- A concrete environment with distinct secrets, a 15-minute access expiry
and a 7-day refresh expiry (in seconds). -/
def env0 : Env :=
  { ACCESS_TOKEN_SECRET := "as", REFRESH_TOKEN_SECRET := "rs",
    ACCESS_TOKEN_EXPIRY := 900, REFRESH_TOKEN_EXPIRY := 604800 }

/-- A concrete environment whose access and refresh secrets coincide. -/
def envEq : Env :=
  { ACCESS_TOKEN_SECRET := "shared", REFRESH_TOKEN_SECRET := "shared",
    ACCESS_TOKEN_EXPIRY := 900, REFRESH_TOKEN_EXPIRY := 604800 }

/-- A concrete SessionManager configuration matching `env0`, with zero clock
tolerance. -/
def cfg0 : Config :=
  { accessSecret := "as", refreshSecret := "rs",
    accessExpiry := 900, refreshExpiry := 604800, clockTolerance := 0 }

/-- The empty SessionManager state: no sessions, nothing revoked. -/
def st0 : SMState := { sessions := [], revoked := [] }

/-! ## Store lemmas -/

theorem tdel_tdel {α : Type} (l : List (String × α × Nat)) (k : String) :
    tdel (tdel l k) k = tdel l k := by
  induction l with
  | nil => rfl
  | cons e rest ih =>
    by_cases h : e.1 = k <;> simp [tdel, h, ih]

theorem tget_tdel_self {α : Type} (l : List (String × α × Nat)) (k : String) :
    tget (tdel l k) k = none := by
  induction l with
  | nil => rfl
  | cons e rest ih =>
    by_cases h : e.1 = k <;> simp [tdel, tget, h, ih]

theorem tget_tset_self {α : Type} (l : List (String × α × Nat)) (k : String)
    (v : α) (ttl : Nat) : tget (tset l k v ttl) k = some (v, ttl) := by
  simp [tset, tget]

theorem tset_tset_self {α : Type} (l : List (String × α × Nat)) (k : String)
    (v : α) (ttl : Nat) : tset (tset l k v ttl) k v ttl = tset l k v ttl := by
  simp [tset, tdel, tdel_tdel]

theorem tdel_of_absent {α : Type} (l : List (String × α × Nat)) (k : String)
    (h : tget l k = none) : tdel l k = l := by
  induction l with
  | nil => rfl
  | cons e rest ih =>
    by_cases he : e.1 = k
    · simp [tget, he] at h
    · simp [tget, he] at h
      simp [tdel, he, ih h]

/-! ## Claim theorems -/

/-- C5: every connectivity or protocol failure of a store operation (`set`,
`get`, `del`) surfaces to the caller as the `StoreUnavailable` error — and
only a failing call does so: no failure is swallowed into a success or an
absent result. -/
theorem C5_store_failures_surface (s : RStore) (key value : String) (ttl : Nat)
    (fault : Bool) :
    (RedisService.set s key value ttl fault = .error .StoreUnavailable ↔ fault = true) ∧
    (RedisService.get s key fault = .error .StoreUnavailable ↔ fault = true) ∧
    (RedisService.del s key fault = .error .StoreUnavailable ↔ fault = true) := by
  cases fault <;>
    simp [RedisService.set, RedisService.get, RedisService.del]

/-- C5 witness: at a concrete store and key, a faulted call raises and an
unfaulted one does not. -/
theorem C5_store_failures_surface_witness :
    (RedisService.set [] "k" "v" 60 true = .error .StoreUnavailable ↔ true = true) ∧
    (RedisService.get [] "k" true = .error .StoreUnavailable ↔ true = true) ∧
    (RedisService.del [] "k" true = .error .StoreUnavailable ↔ true = true) :=
  C5_store_failures_surface [] "k" "v" 60 true

/-- C10: at the store interface absence is not an error — `get` on an absent
key returns `none` (the `null` of the source) rather than raising, an
outcome distinct from the `StoreUnavailable` raised when the underlying
client call itself fails. -/
theorem C10_absence_not_error (s : RStore) (key : String)
    (habs : tget s key = none) :
    RedisService.get s key false = .ok none ∧
    RedisService.get s key true = .error .StoreUnavailable ∧
    (Except.ok (none : Option String) : Except StoreError (Option String)) ≠
      .error .StoreUnavailable := by
  refine ⟨?_, rfl, by simp⟩
  simp [RedisService.get, habs]

/-- C10 witness: the empty store at key "k". -/
theorem C10_absence_not_error_witness :
    tget ([] : RStore) "k" = none ∧
    (RedisService.get [] "k" false = .ok none ∧
     RedisService.get [] "k" true = .error .StoreUnavailable ∧
     (Except.ok (none : Option String) : Except StoreError (Option String)) ≠
       .error .StoreUnavailable) :=
  ⟨rfl, C10_absence_not_error [] "k" rfl⟩

/-- C6: store operations are idempotent — `set` twice with the same key,
value and TTL leaves the state of one `set` (overwrite); `del` on an absent
key succeeds as a no-op; and `logout` called twice raises no error on the
second call and leaves the session absent. -/
theorem C6_idempotence (s : RStore) (key value : String) (ttl : Nat)
    (cfg : Config) (st : SMState) (sid : String)
    (habs : tget s key = none) :
    (RedisService.set s key value ttl false).bind
        (fun s1 => RedisService.set s1 key value ttl false) =
      RedisService.set s key value ttl false ∧
    RedisService.del s key false = .ok s ∧
    (logout cfg ((logout cfg st sid false).2) sid false).1 = .ok () ∧
    tget ((logout cfg ((logout cfg st sid false).2) sid false).2).sessions
      (sessionKey sid) = none := by
  refine ⟨?_, ?_, rfl, ?_⟩
  · simp [RedisService.set, Except.bind, tset_tset_self]
  · simp [RedisService.del, tdel_of_absent s key habs]
  · simp [logout, tget_tdel_self]

/-- C6 witness: the empty store and empty session state. -/
theorem C6_idempotence_witness :
    tget ([] : RStore) "k" = none ∧
    ((RedisService.set [] "k" "v" 60 false).bind
        (fun s1 => RedisService.set s1 "k" "v" 60 false) =
      RedisService.set [] "k" "v" 60 false ∧
    RedisService.del [] "k" false = .ok [] ∧
    (logout cfg0 ((logout cfg0 st0 "s1" false).2) "s1" false).1 = .ok () ∧
    tget ((logout cfg0 ((logout cfg0 st0 "s1" false).2) "s1" false).2).sessions
      (sessionKey "s1") = none) :=
  ⟨rfl, C6_idempotence [] "k" "v" 60 cfg0 st0 "s1" rfl⟩

/-- C3 counterexample: the refresh token generated for user "u1" carries no
`sid` claim at all — `generateRefreshToken` takes no session identifier and
signs only `{ userId, iat, exp }` — refuting the claim that refresh tokens
carry a signed `sid` claim. -/
theorem C3_counterexample :
    JwtService.generateRefreshToken env0 "u1" 1000 =
      Token.signed { userId := "u1", sid := none, iat := 1000, exp := 605800 } "rs" :=
  rfl

/-- C3 (amended): `generateRefreshToken(u)` signs `{ userId: u, iat, exp }`
with the refresh secret and refresh expiry, taking no session identifier;
no `sid` claim is present on either token kind — access and refresh payloads
have the same shape, differing only in secret and expiry. -/
theorem C3_amended_no_sid_claim (e : Env) (u : String) (now : Nat) :
    JwtService.generateRefreshToken e u now =
      Token.signed { userId := u, sid := none, iat := now,
                     exp := now + e.REFRESH_TOKEN_EXPIRY } e.REFRESH_TOKEN_SECRET ∧
    JwtService.generateAccessToken e u now =
      Token.signed { userId := u, sid := none, iat := now,
                     exp := now + e.ACCESS_TOKEN_EXPIRY } e.ACCESS_TOKEN_SECRET :=
  ⟨rfl, rfl⟩

/-- C7: issue/verify round trip — a freshly issued access token verified with
the access secret (before its expiry passes) yields exactly the signed
claims, whose subject is the issuing user; likewise for refresh tokens. -/
theorem C7_roundtrip (e : Env) (u : String) (now : Nat)
    (ha : 0 < e.ACCESS_TOKEN_EXPIRY) (hr : 0 < e.REFRESH_TOKEN_EXPIRY) :
    JwtService.verifyAccessToken e (JwtService.generateAccessToken e u now) now =
      .ok { userId := u, sid := none, iat := now, exp := now + e.ACCESS_TOKEN_EXPIRY } ∧
    JwtService.verifyRefreshToken e (JwtService.generateRefreshToken e u now) now =
      .ok { userId := u, sid := none, iat := now, exp := now + e.REFRESH_TOKEN_EXPIRY } := by
  constructor <;>
  · simp only [JwtService.verifyAccessToken, JwtService.verifyRefreshToken,
      JwtService.generateAccessToken, JwtService.generateRefreshToken,
      jwtVerify, jwtSign, Nat.add_zero]
    rw [if_neg (by simp), if_neg (by omega)]

/-- C7 witness: user "u1" under the concrete environment at time 0. -/
theorem C7_roundtrip_witness :
    JwtService.verifyAccessToken env0 (JwtService.generateAccessToken env0 "u1" 0) 0 =
      .ok { userId := "u1", sid := none, iat := 0, exp := 0 + 900 } ∧
    JwtService.verifyRefreshToken env0 (JwtService.generateRefreshToken env0 "u1" 0) 0 =
      .ok { userId := "u1", sid := none, iat := 0, exp := 0 + 604800 } :=
  C7_roundtrip env0 "u1" 0 (by decide) (by decide)

/-- C8 counterexample: a token whose `exp` passed one second ago — within any
small clock-skew tolerance — is nevertheless rejected as expired, because
the verify calls pass no options and the library's default tolerance of zero
applies. -/
theorem C8_counterexample :
    JwtService.verifyAccessToken env0
      (Token.signed { userId := "u1", sid := none, iat := 0, exp := 10 } "as") 11 =
      .error .TokenExpired :=
  rfl

/-- C8 (amended): `verify` fails with `TokenMalformed` on an invalid
encoding, `TokenSignatureInvalid` when the signature does not match the
secret for the kind, and `TokenExpired` when `exp` has passed — but with no
clock-skew tolerance: the verify calls pass no tolerance option, so the
library default of zero applies and a token is rejected as soon as
`now ≥ exp`. -/
theorem C8_amended_no_tolerance (e : Env) (raw : String) (p : Payload)
    (s : String) (now : Nat) :
    JwtService.verifyAccessToken e (.malformed raw) now = .error .TokenMalformed ∧
    JwtService.verifyRefreshToken e (.malformed raw) now = .error .TokenMalformed ∧
    JwtService.verifyAccessToken e (.signed p s) now =
      (if s ≠ e.ACCESS_TOKEN_SECRET then .error .TokenSignatureInvalid
       else if p.exp ≤ now then .error .TokenExpired
       else .ok p) ∧
    JwtService.verifyRefreshToken e (.signed p s) now =
      (if s ≠ e.REFRESH_TOKEN_SECRET then .error .TokenSignatureInvalid
       else if p.exp ≤ now then .error .TokenExpired
       else .ok p) := by
  refine ⟨rfl, rfl, ?_, ?_⟩ <;>
    simp [JwtService.verifyAccessToken, JwtService.verifyRefreshToken, jwtVerify]

/-- C9: token kinds are distinguished only by the signing secret — when the
configured access and refresh secrets coincide, each verifier accepts the
other kind's freshly issued token; cross-kind rejection (as a signature
failure) holds exactly when the secrets differ. -/
theorem C9_kind_only_by_secret (e : Env) (u : String) (now : Nat) :
    (e.ACCESS_TOKEN_SECRET = e.REFRESH_TOKEN_SECRET → 0 < e.REFRESH_TOKEN_EXPIRY →
      JwtService.verifyAccessToken e (JwtService.generateRefreshToken e u now) now =
        .ok { userId := u, sid := none, iat := now, exp := now + e.REFRESH_TOKEN_EXPIRY }) ∧
    (e.ACCESS_TOKEN_SECRET = e.REFRESH_TOKEN_SECRET → 0 < e.ACCESS_TOKEN_EXPIRY →
      JwtService.verifyRefreshToken e (JwtService.generateAccessToken e u now) now =
        .ok { userId := u, sid := none, iat := now, exp := now + e.ACCESS_TOKEN_EXPIRY }) ∧
    (e.ACCESS_TOKEN_SECRET ≠ e.REFRESH_TOKEN_SECRET →
      JwtService.verifyAccessToken e (JwtService.generateRefreshToken e u now) now =
        .error .TokenSignatureInvalid ∧
      JwtService.verifyRefreshToken e (JwtService.generateAccessToken e u now) now =
        .error .TokenSignatureInvalid) := by
  refine ⟨?_, ?_, ?_⟩
  · intro heq hpos
    simp only [JwtService.verifyAccessToken, JwtService.generateRefreshToken,
      jwtVerify, jwtSign, Nat.add_zero]
    rw [if_neg (by simp [heq]), if_neg (by omega)]
  · intro heq hpos
    simp only [JwtService.verifyRefreshToken, JwtService.generateAccessToken,
      jwtVerify, jwtSign, Nat.add_zero]
    rw [if_neg (by simp [heq]), if_neg (by omega)]
  · intro hne
    refine ⟨?_, ?_⟩
    · simp only [JwtService.verifyAccessToken, JwtService.generateRefreshToken,
        jwtVerify, jwtSign]
      rw [if_pos (fun h => hne h.symm)]
    · simp only [JwtService.verifyRefreshToken, JwtService.generateAccessToken,
        jwtVerify, jwtSign]
      rw [if_pos hne]

/-- C9 witness: with both secrets equal to "shared" the access verifier
accepts a fresh refresh token; with the distinct secrets of `env0` it
rejects it as a signature failure. -/
theorem C9_kind_only_by_secret_witness :
    JwtService.verifyAccessToken envEq (JwtService.generateRefreshToken envEq "u1" 0) 0 =
      .ok { userId := "u1", sid := none, iat := 0, exp := 0 + 604800 } ∧
    JwtService.verifyAccessToken env0 (JwtService.generateRefreshToken env0 "u1" 0) 0 =
      .error .TokenSignatureInvalid :=
  ⟨(C9_kind_only_by_secret envEq "u1" 0).1 rfl (by decide),
   ((C9_kind_only_by_secret env0 "u1" 0).2.2 (by decide)).1⟩

/-- C4: login is fail-closed on the store — a failing session-record write
makes the whole operation fail with `StoreUnavailable` and return no tokens,
and every successful login has completed the store write: the session record
(holding the fingerprint of the returned refresh token, with TTL equal to
the refresh lifetime) is present in the resulting state. -/
theorem C4_login_fail_closed (cfg : Config) (st : SMState) (u sid : String)
    (now : Nat) :
    login cfg st u sid now true = (.error .StoreUnavailable, st) ∧
    (∀ pair st2, login cfg st u sid now false = (.ok pair, st2) →
      tget st2.sessions (sessionKey sid) =
        some ({ userId := u, refreshFingerprint := pair.refreshToken,
                createdAt := now, lastRotatedAt := now }, cfg.refreshExpiry)) := by
  refine ⟨rfl, ?_⟩
  intro pair st2 h
  simp only [login, Bool.false_eq_true, if_false, Prod.mk.injEq, Except.ok.injEq] at h
  obtain ⟨hp, hs⟩ := h
  subst hp
  subst hs
  simp [tget_tset_self, jwtSign]

/-- C4 witness: a concrete login against the empty state — the faulted write
fails with `StoreUnavailable` and the unfaulted one records the session. -/
theorem C4_login_fail_closed_witness :
    login cfg0 st0 "u1" "s1" 0 true = (.error .StoreUnavailable, st0) ∧
    tget ((login cfg0 st0 "u1" "s1" 0 false).2).sessions (sessionKey "s1") =
      some ({ userId := "u1",
              refreshFingerprint := Token.signed
                { userId := "u1", sid := some "s1", iat := 0, exp := 0 + 604800 } "rs",
              createdAt := 0, lastRotatedAt := 0 }, 604800) :=
  ⟨(C4_login_fail_closed cfg0 st0 "u1" "s1" 0).1,
   (C4_login_fail_closed cfg0 st0 "u1" "s1" 0).2 _ _ rfl⟩

/-- C2: `verifyAccess` verifies signature and expiry without any
SessionStore read (its result is unchanged under any replacement of the
stored sessions), then checks the RevocationIndex for the token's subject
and session claims; it fails with `TokenSignatureInvalid` or `TokenExpired`
accordingly, and every signature/expiry-valid token of a subject present in
the RevocationIndex fails with `SessionRevoked`. -/
theorem C2_verifyAccess_taxonomy (cfg : Config)
    (sess1 sess2 : List (String × SessionRecord × Nat)) (rev : List (String × Nat))
    (t : Token) (p : Payload) (s : String) (now : Nat) :
    verifyAccess cfg { sessions := sess1, revoked := rev } t now =
      verifyAccess cfg { sessions := sess2, revoked := rev } t now ∧
    (s ≠ cfg.accessSecret →
      verifyAccess cfg { sessions := sess1, revoked := rev } (.signed p s) now =
        .error .TokenSignatureInvalid) ∧
    (p.exp + cfg.clockTolerance ≤ now →
      verifyAccess cfg { sessions := sess1, revoked := rev }
        (.signed p cfg.accessSecret) now = .error .TokenExpired) ∧
    (now < p.exp + cfg.clockTolerance → revContains rev p.userId = true →
      verifyAccess cfg { sessions := sess1, revoked := rev }
        (.signed p cfg.accessSecret) now = .error .SessionRevoked) ∧
    (now < p.exp + cfg.clockTolerance → revContains rev p.userId = false →
      p.sid = none →
      verifyAccess cfg { sessions := sess1, revoked := rev }
        (.signed p cfg.accessSecret) now = .ok p.userId) := by
  refine ⟨rfl, ?_, ?_, ?_, ?_⟩
  · intro h
    simp only [verifyAccess, jwtVerify]
    rw [if_pos h]
    rfl
  · intro h
    simp only [verifyAccess, jwtVerify]
    rw [if_neg (by simp), if_pos h]
    rfl
  · intro h hrev
    simp only [verifyAccess, jwtVerify]
    rw [if_neg (by simp), if_neg (by omega)]
    simp [hrev]
  · intro h hrev hsid
    simp only [verifyAccess, jwtVerify]
    rw [if_neg (by simp), if_neg (by omega)]
    simp [hrev, hsid]

/-- C2 witness: concrete tokens under `cfg0` — a revoked subject's valid
token fails with `SessionRevoked`; a wrong secret gives
`TokenSignatureInvalid`; an expired token gives `TokenExpired`; a valid
unrevoked token verifies to its subject. -/
theorem C2_verifyAccess_taxonomy_witness :
    verifyAccess cfg0 { sessions := [], revoked := [("u1", 900)] }
      (.signed { userId := "u1", sid := none, iat := 0, exp := 900 } "as") 10 =
      .error .SessionRevoked ∧
    verifyAccess cfg0 { sessions := [], revoked := [] }
      (.signed { userId := "u1", sid := none, iat := 0, exp := 900 } "bad") 10 =
      .error .TokenSignatureInvalid ∧
    verifyAccess cfg0 { sessions := [], revoked := [] }
      (.signed { userId := "u1", sid := none, iat := 0, exp := 900 } "as") 900 =
      .error .TokenExpired ∧
    verifyAccess cfg0 { sessions := [], revoked := [] }
      (.signed { userId := "u1", sid := none, iat := 0, exp := 900 } "as") 10 =
      .ok "u1" :=
  ⟨(C2_verifyAccess_taxonomy cfg0 [] [] [("u1", 900)]
      (.malformed "") { userId := "u1", sid := none, iat := 0, exp := 900 } "as" 10).2.2.2.1
      (by decide) (by decide),
   (C2_verifyAccess_taxonomy cfg0 [] [] []
      (.malformed "") { userId := "u1", sid := none, iat := 0, exp := 900 } "bad" 10).2.1
      (by decide),
   (C2_verifyAccess_taxonomy cfg0 [] [] []
      (.malformed "") { userId := "u1", sid := none, iat := 0, exp := 900 } "as" 900).2.2.1
      (by decide),
   (C2_verifyAccess_taxonomy cfg0 [] [] []
      (.malformed "") { userId := "u1", sid := none, iat := 0, exp := 900 } "as" 10).2.2.2.2
      (by decide) (by decide) rfl⟩

/-- C1: login followed by refresh with the returned refresh token succeeds
and yields a pair whose access token passes `verifyAccess`; a subsequent
call of refresh with the original pre-rotation refresh token fails with
`SessionRevoked` — the rotated-away token is permanently unusable. The
refresh calls happen strictly after issuance (distinct `iat`) and before
the refresh token's expiry, and the user is not already in the
RevocationIndex. -/
theorem C1_login_refresh_rotate (cfg : Config) (st : SMState) (u sid : String)
    (t0 t1 t2 : Nat)
    (hA : 0 < cfg.accessExpiry)
    (h01 : t0 < t1) (h12 : t1 ≤ t2)
    (hR2 : t2 < t0 + cfg.refreshExpiry + cfg.clockTolerance)
    (hrev : revContains st.revoked u = false) :
    ∃ pair1 st1 pair2 st2,
      login cfg st u sid t0 false = (.ok pair1, st1) ∧
      refresh cfg st1 pair1.refreshToken t1 false = (.ok pair2, st2) ∧
      verifyAccess cfg st2 pair2.accessToken t1 = .ok u ∧
      (refresh cfg st2 pair1.refreshToken t2 false).1 = .error .SessionRevoked := by
  refine
    ⟨{ accessToken := jwtSign u none cfg.accessSecret t0 cfg.accessExpiry,
       refreshToken := jwtSign u (some sid) cfg.refreshSecret t0 cfg.refreshExpiry,
       issuedAt := t0, accessExpiresAt := t0 + cfg.accessExpiry,
       refreshExpiresAt := t0 + cfg.refreshExpiry },
     { sessions := tset st.sessions (sessionKey sid)
         { userId := u,
           refreshFingerprint := jwtSign u (some sid) cfg.refreshSecret t0 cfg.refreshExpiry,
           createdAt := t0, lastRotatedAt := t0 } cfg.refreshExpiry,
       revoked := st.revoked },
     { accessToken := jwtSign u none cfg.accessSecret t1 cfg.accessExpiry,
       refreshToken := jwtSign u (some sid) cfg.refreshSecret t1 cfg.refreshExpiry,
       issuedAt := t1, accessExpiresAt := t1 + cfg.accessExpiry,
       refreshExpiresAt := t1 + cfg.refreshExpiry },
     { sessions := tset
         (tset st.sessions (sessionKey sid)
           { userId := u,
             refreshFingerprint := jwtSign u (some sid) cfg.refreshSecret t0 cfg.refreshExpiry,
             createdAt := t0, lastRotatedAt := t0 } cfg.refreshExpiry)
         (sessionKey sid)
         { userId := u,
           refreshFingerprint := jwtSign u (some sid) cfg.refreshSecret t1 cfg.refreshExpiry,
           createdAt := t0, lastRotatedAt := t1 } cfg.refreshExpiry,
       revoked := st.revoked },
     rfl, ?_, ?_, ?_⟩
  · simp only [refresh, jwtVerify, jwtSign]
    rw [if_neg (by simp), if_neg (by omega)]
    simp only [tget_tset_self]
    simp
  · simp only [verifyAccess, jwtVerify, jwtSign]
    rw [if_neg (by simp), if_neg (by omega)]
    simp [hrev]
  · simp only [refresh, jwtVerify, jwtSign]
    rw [if_neg (by simp), if_neg (by omega)]
    simp only [tget_tset_self]
    have hne2 : Token.signed
        { userId := u, sid := some sid, iat := t1, exp := t1 + cfg.refreshExpiry }
        cfg.refreshSecret ≠
        Token.signed
        { userId := u, sid := some sid, iat := t0, exp := t0 + cfg.refreshExpiry }
        cfg.refreshSecret := by
      intro hcontra
      simp only [Token.signed.injEq, Payload.mk.injEq] at hcontra
      omega
    rw [if_neg hne2]
    simp

/-- C1 witness: the concrete flow — login for "u1" at time 0, refresh at
time 1, replay of the original refresh token at time 2. -/
theorem C1_login_refresh_rotate_witness :
    ∃ pair1 st1 pair2 st2,
      login cfg0 st0 "u1" "s1" 0 false = (.ok pair1, st1) ∧
      refresh cfg0 st1 pair1.refreshToken 1 false = (.ok pair2, st2) ∧
      verifyAccess cfg0 st2 pair2.accessToken 1 = .ok "u1" ∧
      (refresh cfg0 st2 pair1.refreshToken 2 false).1 = .error .SessionRevoked :=
  C1_login_refresh_rotate cfg0 st0 "u1" "s1" 0 1 2
    (by decide) (by decide) (by decide) (by decide) rfl
